import Mathlib

/-!
Verification of the schema_replicator repository.

The repository has two source files:

* `src/schema_replicator/extractor.py` — class `DDLExtractor` with methods
  `get_table_base_ddl` (phase-1 CREATE TABLE without foreign keys or
  indexes) and `get_constraints_and_indexes_ddl` (phase-2 list of
  CREATE INDEX / ALTER TABLE ADD CONSTRAINT statements, skipping
  primary-key constraints).
* `src/applier.py` — class `DDLApplier` with method `apply_ddl`, which
  executes an ordered list of DDL statements inside one transaction,
  skipping blank statements and stopping at the first failure.

We embed both shallowly.  SQLAlchemy reflection is modelled as a pure
catalog lookup (table name to descriptor) carried by the engine, and the
dialect compilation functions (`CreateTable(...).compile`,
`CreateIndex(...).compile`, `AddConstraint(...).compile`) are modelled
as arbitrary string-valued functions carried by the engine, since the
repository treats them as an external collaborator.  Database execution
in the applier is modelled by an oracle mapping a statement to `none`
(success) or `some err` (the raised database error).
-/

set_option autoImplicit false

/-- Foreign-key attachment of a column: the referenced table and column. -/
structure ForeignKeyRef where
  refTable : String
  refColumn : String
deriving DecidableEq, Repr

/-- Column metadata as reflected by SQLAlchemy and copied in
`get_table_base_ddl`: the constructor call there passes name, type,
nullable, primary_key, autoincrement, default, server_default and
comment, and explicitly omits the foreign keys. -/
structure ColumnDescriptor where
  name : String
  ctype : String
  nullable : Bool
  primary_key : Bool
  autoincrement : Bool
  default : Option String
  server_default : Option String
  comment : Option String
  foreign_keys : List ForeignKeyRef
deriving DecidableEq, Repr

/-- Index metadata as reflected from the catalog (`table.indexes`). -/
structure IndexDescriptor where
  name : String
  columns : List String
  unique : Bool
deriving DecidableEq, Repr

/-- Constraint kinds:  the four SQLAlchemy constraint classes named in
`get_constraints_and_indexes_ddl`'s import line, plus `otherConstraint`
standing for any constraint class outside those four (the code only ever
tests `isinstance(const, PrimaryKeyConstraint)`). -/
inductive ConstraintKind where
  | primaryKeyConstraint
  | foreignKeyConstraint
  | uniqueConstraint
  | checkConstraint
  | otherConstraint
deriving DecidableEq, Repr

/-- Constraint metadata as reflected from the catalog
(`table.constraints`). -/
structure ConstraintDescriptor where
  kind : ConstraintKind
  name : Option String
  columns : List String
  refTable : Option String
  refColumns : List String
deriving DecidableEq, Repr

/-- A reflected table: `Table(table_name, ..., autoload_with=engine)`.
SQLAlchemy stores `table.indexes` and `table.constraints` as Python
sets; we model each as the list of its elements in iteration order. -/
structure TableDescriptor where
  name : String
  columns : List ColumnDescriptor
  indexes : List IndexDescriptor
  constraints : List ConstraintDescriptor
deriving DecidableEq, Repr

/-- The engine handed to `DDLExtractor.__init__`: reflection
(`autoload_with=self.engine`) is a pure catalog lookup, and the three
dialect compilers (used via `.compile(self.engine)`) are string-valued
functions of the descriptor being compiled. -/
structure Engine where
  catalog : String → TableDescriptor
  compileCreateTable : TableDescriptor → String
  compileIndex : IndexDescriptor → String
  compileConstraint : ConstraintDescriptor → String

/-- Python `str.strip()` whitespace set (ASCII part; what the DDL
statements in this repository can contain). -/
def isPyWhitespace (c : Char) : Bool :=
  c = ' ' || c = '\t' || c = '\n' || c = '\r' || c = '\x0b' || c = '\x0c'

/-- Python `str.strip()`: drop whitespace from both ends. -/
def pyStrip (s : String) : String :=
  ⟨(s.data.dropWhile isPyWhitespace).reverse.dropWhile isPyWhitespace |>.reverse⟩

/-- Python `not stmt.strip()`: true iff the statement is empty or
whitespace-only. -/
def isBlank (s : String) : Bool :=
  s.data.all isPyWhitespace

/-- Column copy performed in `get_table_base_ddl`'s loop: a new
`Column` built from name, type, nullable, primary_key, autoincrement,
default, server_default and comment, with foreign keys explicitly
omitted. -/
def cleanColumn (c : ColumnDescriptor) : ColumnDescriptor :=
  { name := c.name
    ctype := c.ctype
    nullable := c.nullable
    primary_key := c.primary_key
    autoincrement := c.autoincrement
    default := c.default
    server_default := c.server_default
    comment := c.comment
    foreign_keys := [] }

/-- The `clean_table` built in `get_table_base_ddl`: a fresh table in a
fresh `MetaData` holding only the copied columns — no table-level
constraints and no indexes are ever attached to it. -/
def cleanTable (t : TableDescriptor) : TableDescriptor :=
  { name := t.name
    columns := t.columns.map cleanColumn
    indexes := []
    constraints := [] }

/-- `DDLExtractor.get_table_base_ddl`: reflect the table, clone its
columns without foreign keys into `clean_table`, compile
`CreateTable(clean_table)`, then `str(ddl).strip() + ";"`. -/
def get_table_base_ddl (eng : Engine) (table_name : String) : String :=
  pyStrip (eng.compileCreateTable (cleanTable (eng.catalog table_name))) ++ ";"

/-- Error vocabulary for the extractor.  The spec's error taxonomy names
`UnsupportedConstraintKind` as a classification-time failure; the source
file `src/schema_replicator/extractor.py` defines and raises no such
error, so this type exists only to state that claim over the embedded
function's error channel. -/
inductive ExtractorError where
  | unsupportedConstraintKind
deriving DecidableEq, Repr

/-- The constraint loop of `get_constraints_and_indexes_ddl`: skip every
`PrimaryKeyConstraint` via `continue`; for every other constraint — with
no test on which class it is — compile `AddConstraint(const)` and append
`str(stmt) + ";"`. -/
def constraintStmts (compile : ConstraintDescriptor → String) :
    List ConstraintDescriptor → List String
  | [] => []
  | c :: rest =>
    match c.kind with
    | ConstraintKind.primaryKeyConstraint => constraintStmts compile rest
    | _ => (compile c ++ ";") :: constraintStmts compile rest

/-- `DDLExtractor.get_constraints_and_indexes_ddl`: reflect the table,
emit one `CreateIndex` statement per index, then one `AddConstraint`
statement per constraint that is not a `PrimaryKeyConstraint`, each
suffixed with `";"`, in loop order.  The Python method has no `raise`
statement of its own, so the embedded body always returns `Except.ok`;
the `Except` layer is the error channel a raising method would use. -/
def get_constraints_and_indexes_ddl (eng : Engine) (table_name : String) :
    Except ExtractorError (List String) :=
  let table := eng.catalog table_name
  Except.ok
    (table.indexes.map (fun i => eng.compileIndex i ++ ";") ++
      constraintStmts eng.compileConstraint table.constraints)

/-- Predicate for the constraints the code's `continue` skips. -/
def isPrimaryKeyC (c : ConstraintDescriptor) : Bool :=
  c.kind = ConstraintKind.primaryKeyConstraint

theorem constraintStmts_eq_filter_map (compile : ConstraintDescriptor → String)
    (cs : List ConstraintDescriptor) :
    constraintStmts compile cs =
      (cs.filter (fun c => ¬ isPrimaryKeyC c)).map (fun c => compile c ++ ";") := by
  induction cs with
  | nil => rfl
  | cons c rest ih =>
    unfold constraintStmts
    cases hk : c.kind <;>
      simp_all [isPrimaryKeyC, List.filter_cons, hk]

/-- Final state of the transaction opened by `with conn.begin()`:
committed on normal exit of the block, rolled back when an exception
propagates out of it. -/
inductive TxState where
  | committed
  | rolledBack
deriving DecidableEq, Repr

/-- Observable outcome of one `apply_ddl` call: the statements passed to
`conn.execute` in order, the `logger.info` and `logger.error` records,
the transaction's final state, and the exception propagated to the
caller (`none` on normal return). -/
structure ApplyOutcome where
  attempted : List String
  infoLog : List String
  errorLog : List String
  tx : TxState
  err : Option String
deriving DecidableEq, Repr

/-- The record written by `logger.info(f"Executing DDL: ...")`: the
first 50 characters of the statement followed by an ellipsis. -/
def infoMsg (s : String) : String :=
  "Executing DDL: " ++ s.take 50 ++ "..."

/-- The record written by `logger.error(f"Error executing DDL: ...")`:
the full statement and the underlying error. -/
def errMsg (s e : String) : String :=
  "Error executing DDL: " ++ s ++ "\nError: " ++ e

/-- The `for stmt in ddl_statements` loop of `DDLApplier.apply_ddl`,
with `exec` the database (`conn.execute(text(stmt))`): `none` means the
statement executed successfully, `some e` means it raised `e`.  A blank
statement is skipped by `continue` before any logging.  A failing
statement was info-logged first, is error-logged, and its exception is
re-raised (`raise e`), which unwinds both `with` blocks and rolls the
transaction back; nothing after it runs.  When the loop completes,
`conn.begin()` commits. -/
def applyLoop (exec : String → Option String) : List String → ApplyOutcome
  | [] =>
    { attempted := [], infoLog := [], errorLog := [],
      tx := TxState.committed, err := none }
  | s :: rest =>
    if isBlank s then
      applyLoop exec rest
    else
      match exec s with
      | none =>
        let r := applyLoop exec rest
        { attempted := s :: r.attempted
          infoLog := infoMsg s :: r.infoLog
          errorLog := r.errorLog
          tx := r.tx
          err := r.err }
      | some e =>
        { attempted := [s]
          infoLog := [infoMsg s]
          errorLog := [errMsg s e]
          tx := TxState.rolledBack
          err := some e }

/-- `DDLApplier.apply_ddl`: open a connection, open one transaction,
run the statement loop. -/
def apply_ddl (exec : String → Option String) (ddl_statements : List String) :
    ApplyOutcome :=
  applyLoop exec ddl_statements

/-- Concrete catalog data used to evaluate the theorems: the `orders`
table of the spec's end-to-end scenario — `id` integer primary key
autoincrement, `customer_id` integer with a foreign key to
`customers.id`, `total` numeric not null default 0; a primary-key
constraint, a foreign-key constraint, a unique constraint; one
non-unique index on `customer_id`. -/
def ordersTable : TableDescriptor :=
  { name := "orders"
    columns :=
      [ { name := "id", ctype := "INTEGER", nullable := false,
          primary_key := true, autoincrement := true, default := none,
          server_default := none, comment := none, foreign_keys := [] },
        { name := "customer_id", ctype := "INTEGER", nullable := true,
          primary_key := false, autoincrement := false, default := none,
          server_default := none, comment := none,
          foreign_keys := [{ refTable := "customers", refColumn := "id" }] },
        { name := "total", ctype := "NUMERIC", nullable := false,
          primary_key := false, autoincrement := false, default := some "0",
          server_default := none, comment := none, foreign_keys := [] } ]
    indexes :=
      [ { name := "ix_orders_customer_id", columns := ["customer_id"],
          unique := false } ]
    constraints :=
      [ { kind := ConstraintKind.primaryKeyConstraint, name := some "pk_orders",
          columns := ["id"], refTable := none, refColumns := [] },
        { kind := ConstraintKind.foreignKeyConstraint,
          name := some "fk_orders_customer", columns := ["customer_id"],
          refTable := some "customers", refColumns := ["id"] },
        { kind := ConstraintKind.uniqueConstraint, name := some "uq_orders_id",
          columns := ["id"], refTable := none, refColumns := [] } ] }

/-- A table whose only constraint is its primary key, with no indexes. -/
def pkOnlyTable : TableDescriptor :=
  { name := "pk_only"
    columns :=
      [ { name := "id", ctype := "INTEGER", nullable := false,
          primary_key := true, autoincrement := true, default := none,
          server_default := none, comment := none, foreign_keys := [] } ]
    indexes := []
    constraints :=
      [ { kind := ConstraintKind.primaryKeyConstraint, name := some "pk_pk_only",
          columns := ["id"], refTable := none, refColumns := [] } ] }

/-- A table carrying a constraint of a kind outside the four named
classes (an exclusion constraint, say). -/
def weirdTable : TableDescriptor :=
  { name := "weird"
    columns :=
      [ { name := "a", ctype := "INTEGER", nullable := true,
          primary_key := false, autoincrement := false, default := none,
          server_default := none, comment := none, foreign_keys := [] } ]
    indexes := []
    constraints :=
      [ { kind := ConstraintKind.otherConstraint, name := some "excl_weird",
          columns := ["a"], refTable := none, refColumns := [] } ] }

/-- Empty fallback table for unknown names in the concrete catalog. -/
def emptyTable : TableDescriptor :=
  { name := "empty", columns := [], indexes := [], constraints := [] }

/-- A concrete engine: catalog with the demo tables, and simple
deterministic dialect compilers. -/
def ordersEngine : Engine :=
  { catalog := fun n =>
      if n = "orders" then ordersTable
      else if n = "pk_only" then pkOnlyTable
      else if n = "weird" then weirdTable
      else emptyTable
    compileCreateTable := fun t =>
      "CREATE TABLE " ++ t.name ++ " (" ++
        String.intercalate ", " (t.columns.map (fun c => c.name ++ " " ++ c.ctype)) ++ ")"
    compileIndex := fun i =>
      "CREATE INDEX " ++ i.name ++ " (" ++ String.intercalate ", " i.columns ++ ")"
    compileConstraint := fun c =>
      "ALTER TABLE ADD CONSTRAINT " ++ c.name.getD "anon" }

/-- A concrete database oracle: every statement succeeds except the
literal statement `BAD STATEMENT`, which raises `boom`. -/
def demoExec (s : String) : Option String :=
  if s = "BAD STATEMENT" then some "boom" else none

/-- Constraints that survive the `continue` on `PrimaryKeyConstraint`. -/
def nonPkConstraints (t : TableDescriptor) : List ConstraintDescriptor :=
  t.constraints.filter (fun c => ¬ isPrimaryKeyC c)

theorem get_constraints_and_indexes_ddl_eq (eng : Engine) (tn : String) :
    get_constraints_and_indexes_ddl eng tn =
      Except.ok ((eng.catalog tn).indexes.map (fun i => eng.compileIndex i ++ ";") ++
        (nonPkConstraints (eng.catalog tn)).map (fun c => eng.compileConstraint c ++ ";")) := by
  simp [get_constraints_and_indexes_ddl, constraintStmts_eq_filter_map, nonPkConstraints]

/-- C1: the phase split is a partition — every column of the reflected
table appears (by name, in order) among the columns compiled into the
phase-1 base view, and the phase-2 list consists of exactly one
statement per index plus exactly one statement per non-primary-key
constraint, in order, so nothing is emitted twice or dropped and no
primary-key constraint appears as a standalone phase-2 statement. -/
theorem phase_split_partition (eng : Engine) (tn : String) :
    (cleanTable (eng.catalog tn)).columns.map ColumnDescriptor.name =
        (eng.catalog tn).columns.map ColumnDescriptor.name ∧
      (cleanTable (eng.catalog tn)).columns.length = (eng.catalog tn).columns.length ∧
      get_constraints_and_indexes_ddl eng tn =
        Except.ok ((eng.catalog tn).indexes.map (fun i => eng.compileIndex i ++ ";") ++
          ((eng.catalog tn).constraints.filter (fun c => ¬ isPrimaryKeyC c)).map
            (fun c => eng.compileConstraint c ++ ";")) := by
  refine ⟨?_, ?_, ?_⟩
  · simp [cleanTable, cleanColumn, List.map_map, Function.comp]
  · simp [cleanTable]
  · simpa [nonPkConstraints] using get_constraints_and_indexes_ddl_eq eng tn

/-- C2 counterexample: a table whose sole constraint has a kind outside
the four named classes is processed without any error —
`get_constraints_and_indexes_ddl` emits the constraint as an
`AddConstraint` statement instead of raising `UnsupportedConstraintKind`. -/
theorem unsupported_kind_not_raised :
    get_constraints_and_indexes_ddl ordersEngine "weird" =
        Except.ok ["ALTER TABLE ADD CONSTRAINT excl_weird;"] ∧
      get_constraints_and_indexes_ddl ordersEngine "weird" ≠
        Except.error ExtractorError.unsupportedConstraintKind := by
  have h0 : get_constraints_and_indexes_ddl ordersEngine "weird" =
      Except.ok ["ALTER TABLE ADD CONSTRAINT excl_weird;"] := rfl
  exact ⟨h0, fun h => Except.noConfusion (h0.symm.trans h)⟩

/-- C2 amended: `get_constraints_and_indexes_ddl` never raises
`UnsupportedConstraintKind` (or anything else): its only test on a
constraint is `isinstance(const, PrimaryKeyConstraint)`, so it always
returns normally, emitting one statement per index plus one per
non-primary-key constraint of whatever kind. -/
theorem get_constraints_and_indexes_ddl_never_fails (eng : Engine) (tn : String) :
    ∃ l : List String, get_constraints_and_indexes_ddl eng tn = Except.ok l ∧
      l.length = (eng.catalog tn).indexes.length +
        (nonPkConstraints (eng.catalog tn)).length := by
  exact ⟨_, get_constraints_and_indexes_ddl_eq eng tn, by simp⟩

/-- C3: the phase-2 list is in stable input order — position `k` holds
the statement of the catalog's `k`-th index, and position
`indexes.length + k` holds the statement of the `k`-th non-primary-key
constraint in catalog order; the length accounts for all of them, so no
reordering is performed. -/
theorem phase2_stable_order (eng : Engine) (tn : String) (l : List String)
    (h : get_constraints_and_indexes_ddl eng tn = Except.ok l) :
    l.length = (eng.catalog tn).indexes.length +
        (nonPkConstraints (eng.catalog tn)).length ∧
      (∀ k, (hk : k < (eng.catalog tn).indexes.length) →
        l[k]? = some (eng.compileIndex (eng.catalog tn).indexes[k] ++ ";")) ∧
      (∀ k, (hk : k < (nonPkConstraints (eng.catalog tn)).length) →
        l[(eng.catalog tn).indexes.length + k]? =
          some (eng.compileConstraint (nonPkConstraints (eng.catalog tn))[k] ++ ";")) := by
  have hl : l = (eng.catalog tn).indexes.map (fun i => eng.compileIndex i ++ ";") ++
      (nonPkConstraints (eng.catalog tn)).map (fun c => eng.compileConstraint c ++ ";") := by
    have h2 := (get_constraints_and_indexes_ddl_eq eng tn).symm.trans h
    simpa using h2.symm
  subst hl
  refine ⟨by simp, ?_, ?_⟩
  · intro k hk
    rw [List.getElem?_append_left (by simpa using hk)]
    simp [hk]
  · intro k hk
    rw [List.getElem?_append_right (by simp)]
    simp [hk]

/-- C3 witness: on the `orders` table the phase-2 list is the index
statement followed by the foreign-key and unique constraint statements
in catalog order. -/
theorem phase2_stable_order_witness :
    get_constraints_and_indexes_ddl ordersEngine "orders" =
        Except.ok [ "CREATE INDEX ix_orders_customer_id (customer_id);",
          "ALTER TABLE ADD CONSTRAINT fk_orders_customer;",
          "ALTER TABLE ADD CONSTRAINT uq_orders_id;" ] ∧
      [ "CREATE INDEX ix_orders_customer_id (customer_id);",
        "ALTER TABLE ADD CONSTRAINT fk_orders_customer;",
        "ALTER TABLE ADD CONSTRAINT uq_orders_id;" ][1]? =
        some "ALTER TABLE ADD CONSTRAINT fk_orders_customer;" := by
  have h := phase2_stable_order ordersEngine "orders"
      [ "CREATE INDEX ix_orders_customer_id (customer_id);",
        "ALTER TABLE ADD CONSTRAINT fk_orders_customer;",
        "ALTER TABLE ADD CONSTRAINT uq_orders_id;" ] rfl
  exact ⟨rfl, h.2.2 0 (by decide)⟩

/-- C4: rendering is deterministic — two runs over the same reflected
descriptor with the same dialect compilers produce byte-identical
statement text for both `get_table_base_ddl` and
`get_constraints_and_indexes_ddl`. -/
theorem rendering_deterministic (e1 e2 : Engine) (tn : String)
    (hcat : e1.catalog tn = e2.catalog tn)
    (hct : e1.compileCreateTable = e2.compileCreateTable)
    (hci : e1.compileIndex = e2.compileIndex)
    (hcc : e1.compileConstraint = e2.compileConstraint) :
    get_table_base_ddl e1 tn = get_table_base_ddl e2 tn ∧
      get_constraints_and_indexes_ddl e1 tn = get_constraints_and_indexes_ddl e2 tn := by
  constructor
  · simp [get_table_base_ddl, hcat, hct]
  · simp [get_constraints_and_indexes_ddl, hcat, hci, hcc]

/-- C4 witness: two calls on the concrete engine agree. -/
theorem rendering_deterministic_witness :
    get_table_base_ddl ordersEngine "orders" = get_table_base_ddl ordersEngine "orders" ∧
      get_constraints_and_indexes_ddl ordersEngine "orders" =
        get_constraints_and_indexes_ddl ordersEngine "orders" :=
  rendering_deterministic ordersEngine ordersEngine "orders" rfl rfl rfl rfl

/-- C6: each column of the reflected table is carried into the phase-1
base table at the same position with name, type, nullability,
primary-key flag, autoincrement, default, server default and comment
unchanged, and with its foreign-key attachments stripped, so the
descriptor serialized in phase 1 embeds no foreign-key reference. -/
theorem base_columns_preserved (eng : Engine) (tn : String) (i : Nat)
    (hi : i < (eng.catalog tn).columns.length)
    (hi2 : i < (cleanTable (eng.catalog tn)).columns.length) :
    ((cleanTable (eng.catalog tn)).columns[i]).name = ((eng.catalog tn).columns[i]).name ∧
      ((cleanTable (eng.catalog tn)).columns[i]).ctype = ((eng.catalog tn).columns[i]).ctype ∧
      ((cleanTable (eng.catalog tn)).columns[i]).nullable = ((eng.catalog tn).columns[i]).nullable ∧
      ((cleanTable (eng.catalog tn)).columns[i]).primary_key =
        ((eng.catalog tn).columns[i]).primary_key ∧
      ((cleanTable (eng.catalog tn)).columns[i]).autoincrement =
        ((eng.catalog tn).columns[i]).autoincrement ∧
      ((cleanTable (eng.catalog tn)).columns[i]).default = ((eng.catalog tn).columns[i]).default ∧
      ((cleanTable (eng.catalog tn)).columns[i]).server_default =
        ((eng.catalog tn).columns[i]).server_default ∧
      ((cleanTable (eng.catalog tn)).columns[i]).comment = ((eng.catalog tn).columns[i]).comment ∧
      ((cleanTable (eng.catalog tn)).columns[i]).foreign_keys = [] := by
  have hget : (cleanTable (eng.catalog tn)).columns[i] =
      cleanColumn (eng.catalog tn).columns[i] := by
    simp [cleanTable]
  rw [hget]
  simp [cleanColumn]

/-- C6 witness: the `customer_id` column of `orders` keeps its
attributes and loses its foreign key in the base view. -/
theorem base_columns_preserved_witness :
    ((cleanTable (ordersEngine.catalog "orders")).columns.get ⟨1, by decide⟩).foreign_keys = [] ∧
      ((cleanTable (ordersEngine.catalog "orders")).columns.get ⟨1, by decide⟩).name =
        ((ordersEngine.catalog "orders").columns.get ⟨1, by decide⟩).name := by
  have h := base_columns_preserved ordersEngine "orders" 1 (by decide) (by decide)
  exact ⟨h.2.2.2.2.2.2.2.2, h.1⟩

/-- C8: a table with no foreign-key, unique or check constraints and no
indexes — only, possibly, its primary key — yields an empty phase-2
sequence. -/
theorem phase2_empty_when_only_pk (eng : Engine) (tn : String)
    (hidx : (eng.catalog tn).indexes = [])
    (hcon : ∀ c ∈ (eng.catalog tn).constraints,
      c.kind = ConstraintKind.primaryKeyConstraint) :
    get_constraints_and_indexes_ddl eng tn = Except.ok [] := by
  rw [get_constraints_and_indexes_ddl_eq eng tn, hidx]
  have hfil : nonPkConstraints (eng.catalog tn) = [] := by
    simp only [nonPkConstraints, List.filter_eq_nil_iff]
    intro c hc
    simp [isPrimaryKeyC, hcon c hc]
  rw [hfil]
  rfl

/-- C8 witness: the `pk_only` table (primary key, nothing else) has an
empty phase-2 list. -/
theorem phase2_empty_when_only_pk_witness :
    get_constraints_and_indexes_ddl ordersEngine "pk_only" = Except.ok [] :=
  phase2_empty_when_only_pk ordersEngine "pk_only" (by decide) (by decide)

/-- C5: when statement `k` is the first failure — every statement up to
`k` is non-blank, every statement before `k` succeeds, and statement `k`
raises `e` — the applier attempts exactly the statements up to and
including `k` (nothing after `k` runs), the transaction is rolled back,
the error log holds the single record naming statement `k` and its
error, and `e` propagates to the caller. -/
theorem apply_ddl_stops_at_first_failure (exec : String → Option String)
    (stmts : List String) (k : Nat) (hk : k < stmts.length) (e : String)
    (hnb : ∀ i : Fin stmts.length, i.val ≤ k → isBlank (stmts.get i) = false)
    (hpre : ∀ i : Fin stmts.length, i.val < k → exec (stmts.get i) = none)
    (hfail : exec (stmts.get ⟨k, hk⟩) = some e) :
    (apply_ddl exec stmts).attempted = stmts.take (k + 1) ∧
      (apply_ddl exec stmts).err = some e ∧
      (apply_ddl exec stmts).tx = TxState.rolledBack ∧
      (apply_ddl exec stmts).errorLog = [errMsg (stmts.get ⟨k, hk⟩) e] := by
  induction stmts generalizing k with
  | nil => exact absurd hk (Nat.not_lt_zero k)
  | cons s rest ih =>
    cases k with
    | zero =>
      have hb : isBlank s = false := hnb ⟨0, hk⟩ (Nat.le_refl 0)
      have hf : exec s = some e := hfail
      refine ⟨?_, ?_, ?_, ?_⟩ <;> simp [apply_ddl, applyLoop, hb, hf, List.take]
    | succ k2 =>
      have hb : isBlank s = false := hnb ⟨0, Nat.zero_lt_succ _⟩ (Nat.zero_le _)
      have hs : exec s = none := hpre ⟨0, Nat.zero_lt_succ _⟩ (Nat.succ_pos k2)
      have hk2 : k2 < rest.length := Nat.lt_of_succ_lt_succ hk
      have ihr := ih k2 hk2
        (fun i hi => hnb ⟨i.val + 1, Nat.succ_lt_succ i.isLt⟩ (Nat.succ_le_succ hi))
        (fun i hi => hpre ⟨i.val + 1, Nat.succ_lt_succ i.isLt⟩ (Nat.succ_lt_succ hi))
        hfail
      refine ⟨?_, ?_, ?_, ?_⟩ <;>
        simp [apply_ddl, applyLoop, hb, hs, List.take] at ihr ⊢ <;>
        simp [ihr.1, ihr.2.1, ihr.2.2.1, ihr.2.2.2]

/-- C5 witness: with `BAD STATEMENT` failing at position 1, the applier
attempts exactly statements 0 and 1, rolls back, logs the failure, and
propagates `boom`. -/
theorem apply_ddl_stops_at_first_failure_witness :
    (apply_ddl demoExec
        ["CREATE TABLE a (x INTEGER);", "BAD STATEMENT", "CREATE INDEX never;"]).attempted =
      ["CREATE TABLE a (x INTEGER);", "BAD STATEMENT"] ∧
      (apply_ddl demoExec
        ["CREATE TABLE a (x INTEGER);", "BAD STATEMENT", "CREATE INDEX never;"]).err =
        some "boom" ∧
      (apply_ddl demoExec
        ["CREATE TABLE a (x INTEGER);", "BAD STATEMENT", "CREATE INDEX never;"]).tx =
        TxState.rolledBack ∧
      (apply_ddl demoExec
        ["CREATE TABLE a (x INTEGER);", "BAD STATEMENT", "CREATE INDEX never;"]).errorLog =
        ["Error executing DDL: BAD STATEMENT\nError: boom"] :=
  apply_ddl_stops_at_first_failure demoExec
    ["CREATE TABLE a (x INTEGER);", "BAD STATEMENT", "CREATE INDEX never;"]
    1 (by decide) "boom" (by decide) (by decide) (by decide)

/-- C7 counterexample: no function can recover the failing statement
from the caller-visible error value — two runs failing on different
statements with the same database error propagate identical error
values, so the propagated error does not carry the failing statement
text; `apply_ddl` re-raises the underlying exception unannotated. -/
theorem error_value_not_annotated :
    ¬ ∃ recoverStmt : String → String,
        ∀ (exec : String → Option String) (s e : String),
          isBlank s = false → exec s = some e →
          ∃ err : String, (apply_ddl exec [s]).err = some err ∧ recoverStmt err = s := by
  rintro ⟨g, hg⟩
  obtain ⟨e1, he1, hr1⟩ :=
    hg (fun _ => some "boom") "CREATE TABLE a (x INTEGER);" "boom" (by decide) rfl
  obtain ⟨e2, he2, hr2⟩ :=
    hg (fun _ => some "boom") "DROP TABLE b;" "boom" (by decide) rfl
  have hv1 : (apply_ddl (fun _ => some "boom")
      ["CREATE TABLE a (x INTEGER);"]).err = some "boom" := by decide
  have hv2 : (apply_ddl (fun _ => some "boom") ["DROP TABLE b;"]).err = some "boom" := by
    decide
  have heq1 : e1 = "boom" := Option.some.inj (he1.symm.trans hv1)
  have heq2 : e2 = "boom" := Option.some.inj (he2.symm.trans hv2)
  subst heq1
  subst heq2
  have : "CREATE TABLE a (x INTEGER);" = "DROP TABLE b;" := hr1.symm.trans hr2
  exact absurd this (by decide)

/-- C7 amended: when the first failing statement `s` raises `e` — after
a prefix of statements that are each blank (skipped) or succeed — the
applier propagates the underlying error `e` to the caller unchanged,
and records the failing statement text together with the cause in the
error log (the annotation lives in the log, not in the propagated error
value). -/
theorem apply_ddl_propagates_underlying_error (exec : String → Option String)
    (pre rest : List String) (s e : String)
    (hpre : ∀ p ∈ pre, isBlank p = true ∨ exec p = none)
    (hb : isBlank s = false) (hf : exec s = some e) :
    (apply_ddl exec (pre ++ s :: rest)).err = some e ∧
      (apply_ddl exec (pre ++ s :: rest)).errorLog =
        ["Error executing DDL: " ++ s ++ "\nError: " ++ e] := by
  induction pre with
  | nil => constructor <;> simp [apply_ddl, applyLoop, hb, hf, errMsg]
  | cons p ps ih =>
    have hih := ih (fun q hq => hpre q (List.mem_cons_of_mem p hq))
    rcases hpre p (List.mem_cons_self p ps) with hbp | hep
    · simpa [apply_ddl, applyLoop, hbp] using hih
    · by_cases hbp : isBlank p
      · simpa [apply_ddl, applyLoop, hbp] using hih
      · simpa [apply_ddl, applyLoop, hbp, hep] using hih

/-- C7 amended witness: the run failing on `BAD STATEMENT` propagates
exactly `boom` and logs the statement with the cause. -/
theorem apply_ddl_propagates_underlying_error_witness :
    (apply_ddl demoExec
        ["CREATE TABLE a (x INTEGER);", "BAD STATEMENT", "CREATE INDEX never;"]).err =
      some "boom" ∧
      (apply_ddl demoExec
        ["CREATE TABLE a (x INTEGER);", "BAD STATEMENT", "CREATE INDEX never;"]).errorLog =
        ["Error executing DDL: BAD STATEMENT\nError: boom"] :=
  apply_ddl_propagates_underlying_error demoExec
    ["CREATE TABLE a (x INTEGER);"] ["CREATE INDEX never;"] "BAD STATEMENT" "boom"
    (by decide) (by decide) (by decide)

/-- C9: blank statements are invisible to the applier — the outcome of a
run (statements executed, info log, error log, transaction state,
propagated error) equals the outcome on the sequence with all blank
entries removed, so blanks are skipped without error, without being
executed, and without being logged, while the non-blank statements
proceed normally. -/
theorem apply_ddl_skips_blanks (exec : String → Option String) (stmts : List String) :
    apply_ddl exec stmts = apply_ddl exec (stmts.filter (fun s => isBlank s = false)) := by
  induction stmts with
  | nil => rfl
  | cons s rest ih =>
    by_cases hb : isBlank s
    · simp [apply_ddl, applyLoop, hb, List.filter_cons] at ih ⊢
      exact ih
    · cases hexec : exec s with
      | none =>
        simp [apply_ddl, applyLoop, hb, hexec, List.filter_cons] at ih ⊢
        simp [ih]
      | some e =>
        simp [apply_ddl, applyLoop, hb, hexec, List.filter_cons]

/-- C10: a call whose statements are all blank (in particular the empty
call) executes nothing, logs nothing, commits its transaction and
returns without error. -/
theorem apply_ddl_all_blank (exec : String → Option String) (stmts : List String)
    (h : ∀ s ∈ stmts, isBlank s = true) :
    apply_ddl exec stmts =
      { attempted := [], infoLog := [], errorLog := [],
        tx := TxState.committed, err := none } := by
  induction stmts with
  | nil => rfl
  | cons s rest ih =>
    have hb : isBlank s = true := h s (List.mem_cons_self s rest)
    have hr := ih (fun x hx => h x (List.mem_cons_of_mem s hx))
    simpa [apply_ddl, applyLoop, hb] using hr

/-- C10 witness: a list of empty and whitespace-only statements commits
and returns normally with nothing attempted. -/
theorem apply_ddl_all_blank_witness :
    apply_ddl demoExec ["", "   ", "\t\n"] =
      { attempted := [], infoLog := [], errorLog := [],
        tx := TxState.committed, err := none } :=
  apply_ddl_all_blank demoExec ["", "   ", "\t\n"] (by decide)
